import Mathlib

/-!
Shallow embedding of the calculation/pricing module of the Namak_Para
bookkeeping app, translated from `src/client/src/pages/payment-tracker.tsx`
and `src/client/src/pages/dashboard.tsx`.

Modelling conventions:
* JavaScript numbers are modelled as exact rationals (`ℚ`).
* JavaScript objects used as keyed maps (selling-price columns, package
  selections, material-usage records) are modelled as association lists,
  with `List.lookup` as the property read; an absent property is `none`.
* The `localStorage`-backed state that the source reads through its
  `DataManager` / `PaymentDataManager` static methods is passed explicitly
  as a parameter; each embedded function takes the stored data it reads.
* All embedded functions are total.  This reflects the source: the bodies
  of the embedded functions cannot throw on in-memory data, so their
  `try/catch` wrappers are dead code.
-/

/-- Price tier selector, `'retail' | 'wholesale'` in the source. -/
inductive PriceType where
  | retail
  | wholesale
  deriving DecidableEq

/-- A JS object mapping packet sizes (grams) to unit prices, e.g. the
`retail` sub-object of the selling-price store.  Property read is
`List.lookup`. -/
abbrev SizeMap := List (Nat × ℚ)

/-- JS property read `m[size]`. -/
def SizeMap.read (m : SizeMap) (size : Nat) : Option ℚ :=
  m.lookup size

/-- JS property write `m[size] = p`: overwrite the (first) binding of the
key when present, append the binding otherwise.  For the duplicate-free
objects the app builds this is exactly in-place property assignment. -/
def SizeMap.write : SizeMap → Nat → ℚ → SizeMap
  | [], size, p => [(size, p)]
  | e :: t, size, p => if e.1 = size then (size, p) :: t else e :: SizeMap.write t size p

/-- The parsed shape of the selling-price store,
`{ retail?: {...}, wholesale?: {...} }`; either sub-object may be absent
from parsed JSON. -/
structure SellingPrices where
  retail : Option SizeMap
  wholesale : Option SizeMap
  deriving DecidableEq

/-- Read the sub-object for a price tier (`prices[type]`). -/
def SellingPrices.sub (sp : SellingPrices) : PriceType → Option SizeMap
  | .retail => sp.retail
  | .wholesale => sp.wholesale

/-- The `localStorage` selling-price slot as seen through
`getSellingPrices`: the key may be absent, hold JSON of an object, or hold
JSON of a non-object value (which the callers' `typeof` guard rejects). -/
inductive StoredPrices where
  | absent
  | obj (sp : SellingPrices)
  | nonObject
  deriving DecidableEq

/-- Built-in default retail prices; both source files carry these same
literals in their `getSellingPrices`. -/
def defaultRetail : SizeMap :=
  [(50, 15), (100, 25), (250, 70), (500, 100), (1000, 250)]

/-- Built-in default wholesale prices (20% less than retail). -/
def defaultWholesale : SizeMap :=
  [(50, 12), (100, 20), (250, 56), (500, 80), (1000, 200)]

/-- The default selling-price object returned when nothing is stored. -/
def defaultSellingPrices : SellingPrices :=
  { retail := some defaultRetail, wholesale := some defaultWholesale }

/-- `PaymentDataManager.getSellingPrices` / `DataManager.getSellingPrices`
(verbatim-identical in the two source files): parse the stored JSON when
the slot is present, else return the built-in defaults.  The result is
`none` exactly when the slot held a non-object JSON value. -/
def getSellingPrices : StoredPrices → Option SellingPrices
  | .absent => some defaultSellingPrices
  | .obj sp => some sp
  | .nonObject => none

/-- `CONFIG.PACKET_SIZES`, identical in both source files. -/
def PACKET_SIZES : List Nat := [50, 100, 250, 500, 1000]

/-- The hard-coded per-call fallback table each copy builds when the
loaded pricing value is not an object
(`selectedPrices = { 50: priceType === 'wholesale' ? 12 : 15, ... }`). -/
def corruptedFallback (pt : PriceType) : SizeMap :=
  [(50, if pt = .wholesale then 12 else 15),
   (100, if pt = .wholesale then 20 else 25),
   (250, if pt = .wholesale then 56 else 70),
   (500, if pt = .wholesale then 80 else 100),
   (1000, if pt = .wholesale then 200 else 250)]

/-- `selectedPrices = allPrices[priceType] || allPrices.retail || {}` when
`allPrices` passes the object guard, else the hard-coded fallback table.
(An absent sub-object is the only falsy case: `{}` is truthy in JS.) -/
def selectedPricesOf (allPrices : Option SellingPrices) (pt : PriceType) : SizeMap :=
  match allPrices with
  | some ap => (Option.orElse (ap.sub pt) (fun _ => ap.retail)).getD []
  | none => corruptedFallback pt

/-- The per-copy linear price formula
`priceType === 'wholesale' ? size * 0.2 : size * 0.25`. -/
def linearFallback (pt : PriceType) (size : Nat) : ℚ :=
  match pt with
  | .wholesale => (size : ℚ) * 0.2
  | .retail => (size : ℚ) * 0.25

/-- `if (selectedPrices && selectedPrices[size]) pricePerPacket =
selectedPrices[size]; else pricePerPacket = ...linear formula`.
A stored `0` is falsy in JS, so it falls through to the linear formula. -/
def resolvePrice (selected : SizeMap) (pt : PriceType) (size : Nat) : ℚ :=
  match SizeMap.read selected size with
  | some p => if p = 0 then linearFallback pt size else p
  | none => linearFallback pt size

/-- End-to-end unit-price resolution for one (variant, size): load the
table (stored JSON or defaults), select the tier column, then apply the
truthiness/fallback logic of the summary loops. -/
def getPrice (store : StoredPrices) (pt : PriceType) (size : Nat) : ℚ :=
  resolvePrice (selectedPricesOf (getSellingPrices store) pt) pt size

/-- A package selection: JS object mapping packet size to quantity. -/
abbrev PackageSelection := List (Nat × ℚ)

/-- Result record of the order-summary computation. -/
structure OrderSummary where
  totalWeight : ℚ
  totalPackets : ℚ
  totalAmount : ℚ
  deriving DecidableEq

/-- `calculateOrderSummary(packages, priceType)` from
`payment-tracker.tsx`, with the `localStorage` pricing state it reads via
`PaymentDataManager.getSellingPrices()` made an explicit parameter. -/
def calculateOrderSummary (packages : PackageSelection) (priceType : PriceType)
    (store : StoredPrices) : OrderSummary :=
  let allPrices := getSellingPrices store
  let selectedPrices := selectedPricesOf allPrices priceType
  PACKET_SIZES.foldl
    (fun acc size =>
      let qty := (packages.lookup size).getD 0
      let weight := (size : ℚ) * qty
      let pricePerPacket := resolvePrice selectedPrices priceType size
      let amount := pricePerPacket * qty
      { totalWeight := acc.totalWeight + weight
        totalPackets := acc.totalPackets + qty
        totalAmount := acc.totalAmount + amount })
    { totalWeight := 0, totalPackets := 0, totalAmount := 0 }

/-- `calculateSummary()` from `dashboard.tsx` (its `packages` and
`priceType` component state made parameters, its
`DataManager.getSellingPrices()` read made the `store` parameter).  The
source body is a verbatim copy of `calculateOrderSummary`, and so is this
embedding. -/
def calculateSummary (packages : PackageSelection) (priceType : PriceType)
    (store : StoredPrices) : OrderSummary :=
  let allPrices := getSellingPrices store
  let selectedPrices := selectedPricesOf allPrices priceType
  PACKET_SIZES.foldl
    (fun acc size =>
      let qty := (packages.lookup size).getD 0
      let weight := (size : ℚ) * qty
      let pricePerPacket := resolvePrice selectedPrices priceType size
      let amount := pricePerPacket * qty
      { totalWeight := acc.totalWeight + weight
        totalPackets := acc.totalPackets + qty
        totalAmount := acc.totalAmount + amount })
    { totalWeight := 0, totalPackets := 0, totalAmount := 0 }

/-- `CONFIG.YIELD_` yield constant of `dashboard.tsx`: 1 kg of maida
yields 1.4 kg of finished product.  (The source spells the constant name
with a RATIO suffix; it is shortened here.) -/
def YIELD_FACTOR : ℚ := 1.4

/-- `CONFIG.GAS_COST_PER_MINUTE` of `dashboard.tsx` (₹2 per minute).  The
`payment-tracker.tsx` copy carries `0.5` but never uses it. -/
def GAS_COST_PER_MINUTE : ℚ := 2

/-- Result record of `BusinessCalculator.calculateMaterialRequirements`. -/
structure MaterialRequirements where
  maida : ℚ
  oil : ℚ
  salt : ℚ
  ajwain : ℚ
  gasMinutes : ℚ
  deriving DecidableEq

/-- `BusinessCalculator.calculateMaterialRequirements(totalWeightInGrams)`
from `dashboard.tsx`.  `Math.ceil` on a rational is `Int.ceil`. -/
def calculateMaterialRequirements (totalWeightInGrams : ℚ) : MaterialRequirements :=
  let weightInKg := totalWeightInGrams / 1000
  { maida := weightInKg / YIELD_FACTOR
    oil := weightInKg * 0.1
    salt := weightInKg * 0.02
    ajwain := weightInKg * 0.01
    gasMinutes := ((⌈weightInKg / 5⌉ : ℤ) : ℚ) * 30 }

/-- The `Material` record of `dashboard.tsx`. -/
structure Material where
  id : ℤ
  name : String
  unit : String
  pricePerUnit : ℚ
  stock : ℚ
  deriving DecidableEq

/-- `BusinessCalculator.calculateProductionCost(materialUsage)` from
`dashboard.tsx`, with the materials list it reads via
`DataManager.getMaterials()` made an explicit parameter.  The usage record
is its list of `Object.entries`. -/
def calculateProductionCost (materials : List Material)
    (materialUsage : List (String × ℚ)) : ℚ :=
  materialUsage.foldl
    (fun totalCost entry =>
      if entry.1 = "gasMinutes" then
        totalCost + entry.2 * GAS_COST_PER_MINUTE
      else
        match materials.find? (fun m => m.name.toLower == entry.1.toLower) with
        | some material => totalCost + entry.2 * material.pricePerUnit
        | none => totalCost)
    0

/-- The `IncomeEntry` record of `payment-tracker.tsx`. -/
structure IncomeEntry where
  id : String
  customerName : String
  amount : ℚ
  date : String
  orderSize : Option String
  remarks : Option String
  orderId : Option String
  createdAt : String
  deriving DecidableEq

/-- The `ExpenseEntry` record of `payment-tracker.tsx`. -/
structure ExpenseEntry where
  id : String
  item : String
  amount : ℚ
  date : String
  remarks : Option String
  isExtra : Bool
  createdAt : String
  deriving DecidableEq

/-- `totalIncome = incomeEntries.reduce((sum, entry) => sum + entry.amount, 0)`
(both copies in `payment-tracker.tsx` are identical). -/
def totalIncome (incomeEntries : List IncomeEntry) : ℚ :=
  incomeEntries.foldl (fun sum entry => sum + entry.amount) 0

/-- `totalExpense`: sum of the non-extra expense amounts. -/
def totalExpense (expenseEntries : List ExpenseEntry) : ℚ :=
  (expenseEntries.filter (fun entry => !entry.isExtra)).foldl
    (fun sum entry => sum + entry.amount) 0

/-- `extraExpense`: sum of the extra-flagged expense amounts. -/
def extraExpense (expenseEntries : List ExpenseEntry) : ℚ :=
  (expenseEntries.filter (fun entry => entry.isExtra)).foldl
    (fun sum entry => sum + entry.amount) 0

/-- `profit = totalIncome - totalExpense`. -/
def profit (incomeEntries : List IncomeEntry) (expenseEntries : List ExpenseEntry) : ℚ :=
  totalIncome incomeEntries - totalExpense expenseEntries

/-- Order status of `dashboard.tsx` orders. -/
inductive OrderStatus where
  | pending
  | completed
  deriving DecidableEq

/-- A package line item of an order. -/
structure PackageItem where
  size : ℚ
  quantity : ℚ
  weight : ℚ
  amount : ℚ
  deriving DecidableEq

/-- The `Order` record of `dashboard.tsx` (numeric id). -/
structure Order where
  id : ℤ
  customerName : String
  deliveryDate : String
  packages : List PackageItem
  totalWeight : ℚ
  totalAmount : ℚ
  status : OrderStatus
  priceType : PriceType
  createdAt : String
  deriving DecidableEq

/-- The `Payment` record of `dashboard.tsx` (payment mode kept as a raw
string). -/
structure Payment where
  id : String
  orderId : ℤ
  amount : ℚ
  date : String
  mode : String
  notes : String
  createdAt : String
  deriving DecidableEq

/-- Result record of `BusinessCalculator.getPaymentStatus`. -/
structure PaymentStatus where
  totalAmount : ℚ
  totalPaid : ℚ
  pending : ℚ
  status : String
  deriving DecidableEq

/-- `BusinessCalculator.getPaymentStatus(orderId)` from `dashboard.tsx`,
with the stored orders and payments it reads through `DataManager` made
explicit parameters.  `order?.totalAmount || 0` reads as: the order's
total when the order is found, `0` otherwise (a stored total of `0` is
falsy and also yields `0`). -/
def getPaymentStatus (orders : List Order) (payments : List Payment)
    (orderId : ℤ) : PaymentStatus :=
  let ps := payments.filter (fun p => p.orderId == orderId)
  let totalPaid := ps.foldl (fun sum p => sum + p.amount) 0
  let order := orders.find? (fun o => o.id == orderId)
  let totalAmount := (order.map (fun o => o.totalAmount)).getD 0
  let pending := totalAmount - totalPaid
  { totalAmount := totalAmount
    totalPaid := totalPaid
    pending := pending
    status := if pending ≤ 0 then "Paid" else if totalPaid > 0 then "Partial" else "Unpaid" }

/-- The `currentPrices` component state of `payment-tracker.tsx`: both
tier columns always present. -/
structure CurrentPrices where
  retail : SizeMap
  wholesale : SizeMap
  deriving DecidableEq

/-- Read a tier column of the component state. -/
def CurrentPrices.sub (cur : CurrentPrices) : PriceType → SizeMap
  | .retail => cur.retail
  | .wholesale => cur.wholesale

/-- `handlePriceUpdate(type, size, newPrice)` from `payment-tracker.tsx`:
`if (newPrice < 0) return;` then spread-update
`{ ...currentPrices, [type]: { ...currentPrices[type], [size]: newPrice } }`.
Returns the resulting state (which the source also saves). -/
def handlePriceUpdate (currentPrices : CurrentPrices) (t : PriceType)
    (size : Nat) (newPrice : ℚ) : CurrentPrices :=
  if newPrice < 0 then currentPrices
  else
    match t with
    | .retail => { currentPrices with retail := SizeMap.write currentPrices.retail size newPrice }
    | .wholesale => { currentPrices with wholesale := SizeMap.write currentPrices.wholesale size newPrice }

/-- `DataManager.updateSellingPrice(type, size, newPrice)` from
`dashboard.tsx`, acting on the loaded price object:
`if (!prices[type]) prices[type] = {}; prices[type][size] = newPrice;`.
No guard on the price value. -/
def updateSellingPrice (prices : SellingPrices) (t : PriceType)
    (size : Nat) (newPrice : ℚ) : SellingPrices :=
  match t with
  | .retail => { prices with retail := some (SizeMap.write (prices.retail.getD []) size newPrice) }
  | .wholesale => { prices with wholesale := some (SizeMap.write (prices.wholesale.getD []) size newPrice) }

/-- `savePrice()` from the `ProductPricingSection` of `dashboard.tsx`,
acting on the loaded price object; the numeric price stands for
`parseFloat(tempPrice)`.  Returns the resulting stored prices and whether
the error toast was shown: saving happens only when an edit is active and
the parsed price is strictly positive. -/
def savePrice (t : PriceType) (editingSize : Option Nat) (newPrice : ℚ)
    (prices : SellingPrices) : SellingPrices × Bool :=
  match editingSize with
  | some size =>
      if newPrice > 0 then (updateSellingPrice prices t size newPrice, false)
      else (prices, true)
  | none => (prices, false)

/-- Non-negativity of every price bound in a size map. -/
def SizeMapNonneg (m : SizeMap) : Prop := ∀ e ∈ m, 0 ≤ e.2

/-- Non-negativity of an optional size map. -/
def OptMapNonneg : Option SizeMap → Prop
  | none => True
  | some m => SizeMapNonneg m

/-- The pricing-table invariant of the data model: every price stored in
the selling-price slot is non-negative (the update handlers never store a
negative price). -/
def StoredPricesNonneg : StoredPrices → Prop
  | .absent => True
  | .nonObject => True
  | .obj sp => OptMapNonneg sp.retail ∧ OptMapNonneg sp.wholesale

/-- Concrete fixture: a stored pricing object whose retail column holds
an explicit `0` for the 100 g packet. -/
def zeroPriceStore : StoredPrices :=
  .obj { retail := some [(100, 0)], wholesale := none }

/-- Concrete fixture: a stored pricing object overriding the retail 50 g
price. -/
def overrideStore : StoredPrices :=
  .obj { retail := some [(50, 20)], wholesale := none }

/-- Concrete fixture: an empty stored pricing object. -/
def emptyStore : StoredPrices :=
  .obj { retail := some [], wholesale := some [] }

/-- Concrete fixture: one income entry of amount 100. -/
def sampleIncome : IncomeEntry :=
  { id := "i1", customerName := "A", amount := 100, date := "2025-01-01"
    orderSize := none, remarks := none, orderId := none, createdAt := "" }

/-- Concrete fixture: a business expense of amount 30. -/
def sampleExpense30 : ExpenseEntry :=
  { id := "e1", item := "oil", amount := 30, date := "2025-01-01"
    remarks := none, isExtra := false, createdAt := "" }

/-- Concrete fixture: an extra-flagged expense of amount 999. -/
def sampleExpense999 : ExpenseEntry :=
  { id := "e2", item := "tv", amount := 999, date := "2025-01-01"
    remarks := none, isExtra := true, createdAt := "" }

/-- Concrete fixture: an order with total amount 500. -/
def sampleOrder : Order :=
  { id := 1, customerName := "C", deliveryDate := "2025-01-02", packages := []
    totalWeight := 450, totalAmount := 500, status := .pending
    priceType := .retail, createdAt := "" }

/-- Concrete fixture: a payment of the given amount against order 1. -/
def samplePayment (a : ℚ) : Payment :=
  { id := "p1", orderId := 1, amount := a, date := "2025-01-03"
    mode := "cash", notes := "", createdAt := "" }

/-- Concrete fixture: a pricing component state with both default columns. -/
def sampleCurrentPrices : CurrentPrices :=
  { retail := defaultRetail, wholesale := defaultWholesale }

/-- Helper (not in the source): the amount a single usage entry adds to
the production cost — the gas rate for the gas-minutes key, the matched
material's unit price otherwise, `0` on a lookup miss. -/
def usageContribution (materials : List Material) (entry : String × ℚ) : ℚ :=
  if entry.1 = "gasMinutes" then entry.2 * GAS_COST_PER_MINUTE
  else
    match materials.find? (fun m => m.name.toLower == entry.1.toLower) with
    | some material => entry.2 * material.pricePerUnit
    | none => 0

/-! ## Helper lemmas -/

/-- Folding `(· + f ·)` from an accumulator is the accumulator plus the
sum of the mapped list. -/
theorem foldl_add_eq_sum {α : Type} (f : α → ℚ) (l : List α) (a : ℚ) :
    l.foldl (fun s e => s + f e) a = a + (l.map f).sum := by
  induction l generalizing a with
  | nil => simp
  | cons e t ih => simp [ih, add_assoc]

/-- A successful association-list lookup comes from a bound pair. -/
theorem lookup_mem {m : SizeMap} {k : Nat} {v : ℚ}
    (h : m.lookup k = some v) : (k, v) ∈ m := by
  induction m with
  | nil => simp at h
  | cons e t ih =>
    obtain ⟨k', v'⟩ := e
    rw [List.lookup_cons] at h
    by_cases hk : k = k'
    · subst hk
      simp at h
      simp [h]
    · have hb : (k == k') = false := beq_false_of_ne hk
      rw [hb] at h
      exact List.mem_cons_of_mem _ (ih h)

/-- Reading back a written key returns the written value. -/
theorem read_write (m : SizeMap) (k : Nat) (v : ℚ) :
    SizeMap.read (SizeMap.write m k v) k = some v := by
  induction m with
  | nil => simp [SizeMap.write, SizeMap.read]
  | cons e t ih =>
    obtain ⟨k', v'⟩ := e
    by_cases hk : k' = k
    · subst hk
      simp [SizeMap.write, SizeMap.read]
    · have hb : (k == k') = false := beq_false_of_ne (fun h => hk h.symm)
      simp only [SizeMap.write, hk, if_false]
      rw [SizeMap.read, List.lookup_cons, hb]
      exact ih

/-! ## C1: the order summary as a function of its inputs -/

/-- C1 (counterexample): as stated the claim is false — the summary is
not a function of the selection and variant alone.  With the same
selection `{50: 1}` and the same variant `retail`, a call made when no
prices are stored differs from a call made when a retail override
`{50: 20}` is stored: the stored pricing table is a third, hidden input. -/
theorem calculateOrderSummary_depends_on_store :
    calculateOrderSummary [(50, 1)] .retail .absent ≠
      calculateOrderSummary [(50, 1)] .retail overrideStore := by
  have h1 : (calculateOrderSummary [(50, 1)] .retail .absent).totalAmount = 15 := by
    simp [calculateOrderSummary, PACKET_SIZES, selectedPricesOf, getSellingPrices,
      defaultSellingPrices, SellingPrices.sub, Option.orElse, resolvePrice,
      SizeMap.read, List.lookup, defaultRetail, linearFallback]
  have h2 : (calculateOrderSummary [(50, 1)] .retail overrideStore).totalAmount = 20 := by
    simp [calculateOrderSummary, PACKET_SIZES, selectedPricesOf, getSellingPrices,
      overrideStore, SellingPrices.sub, Option.orElse, resolvePrice,
      SizeMap.read, List.lookup, linearFallback]
  intro h
  rw [h, h2] at h1
  norm_num at h1

/-- C1 (amended): the order summary computation is a pure, deterministic
function of three inputs — the selection, the variant, and the pricing
state read from storage.  With the stored pricing state held fixed, any
two calls return the same result; in particular the two duplicated source
copies, `calculateOrderSummary` (payment tracker) and `calculateSummary`
(dashboard), compute exactly the same function. -/
theorem calculateOrderSummary_pure (packages : PackageSelection)
    (priceType : PriceType) (store : StoredPrices) :
    calculateOrderSummary packages priceType store =
      calculateSummary packages priceType store := rfl

/-! ## C2: the total amount is the price-weighted quantity sum -/

/-- C2: for every selection, variant and stored pricing state, the
`totalAmount` of the order summary is the sum over the enumerated packet
sizes of the resolved unit price times the requested quantity (absent
sizes counting as quantity 0). -/
theorem calculateOrderSummary_totalAmount (packages : PackageSelection)
    (priceType : PriceType) (store : StoredPrices) :
    (calculateOrderSummary packages priceType store).totalAmount =
      (PACKET_SIZES.map
        (fun size => getPrice store priceType size * (packages.lookup size).getD 0)).sum := by
  simp [calculateOrderSummary, getPrice, PACKET_SIZES]
  ring

/-! ## C3: price resolution is total and non-negative -/

/-- The linear fallback price is never negative. -/
theorem linearFallback_nonneg (pt : PriceType) (size : Nat) :
    0 ≤ linearFallback pt size := by
  cases pt <;> simp [linearFallback] <;> positivity

/-- Price resolution over a non-negative column is non-negative. -/
theorem resolvePrice_nonneg (m : SizeMap) (pt : PriceType) (size : Nat)
    (hm : SizeMapNonneg m) : 0 ≤ resolvePrice m pt size := by
  unfold resolvePrice
  cases hl : SizeMap.read m size with
  | none => exact linearFallback_nonneg pt size
  | some p =>
    by_cases hp : p = 0
    · simpa [hp] using linearFallback_nonneg pt size
    · simpa [hp] using hm (size, p) (lookup_mem hl)

/-- The default retail column is non-negative. -/
theorem defaultRetail_nonneg : SizeMapNonneg defaultRetail := by
  intro e he
  simp [defaultRetail] at he
  rcases he with rfl | rfl | rfl | rfl | rfl <;> norm_num

/-- The default wholesale column is non-negative. -/
theorem defaultWholesale_nonneg : SizeMapNonneg defaultWholesale := by
  intro e he
  simp [defaultWholesale] at he
  rcases he with rfl | rfl | rfl | rfl | rfl <;> norm_num

/-- The corrupted-structure fallback table is non-negative. -/
theorem corruptedFallback_nonneg (pt : PriceType) :
    SizeMapNonneg (corruptedFallback pt) := by
  cases pt <;> intro e he <;> simp [corruptedFallback] at he <;>
    rcases he with rfl | rfl | rfl | rfl | rfl <;> norm_num

/-- The empty column is (vacuously) non-negative. -/
theorem emptyMap_nonneg : SizeMapNonneg ([] : SizeMap) := by
  intro e he
  simp at he

/-- Whatever column the load-and-select chain produces is non-negative,
provided the stored table satisfies the non-negativity invariant. -/
theorem selectedPricesOf_nonneg (store : StoredPrices) (pt : PriceType)
    (h : StoredPricesNonneg store) :
    SizeMapNonneg (selectedPricesOf (getSellingPrices store) pt) := by
  cases store with
  | absent =>
    cases pt with
    | retail =>
      simpa [selectedPricesOf, getSellingPrices, defaultSellingPrices,
        SellingPrices.sub, Option.orElse] using defaultRetail_nonneg
    | wholesale =>
      simpa [selectedPricesOf, getSellingPrices, defaultSellingPrices,
        SellingPrices.sub, Option.orElse] using defaultWholesale_nonneg
  | nonObject =>
    simpa [selectedPricesOf, getSellingPrices] using corruptedFallback_nonneg pt
  | obj sp =>
    obtain ⟨hr, hw⟩ := h
    cases pt with
    | retail =>
      cases hsr : sp.retail with
      | none =>
        simpa [selectedPricesOf, getSellingPrices, SellingPrices.sub, hsr,
          Option.orElse] using emptyMap_nonneg
      | some m =>
        rw [hsr] at hr
        simpa [selectedPricesOf, getSellingPrices, SellingPrices.sub, hsr,
          Option.orElse] using hr
    | wholesale =>
      cases hsw : sp.wholesale with
      | some m =>
        rw [hsw] at hw
        simpa [selectedPricesOf, getSellingPrices, SellingPrices.sub, hsw,
          Option.orElse] using hw
      | none =>
        cases hsr : sp.retail with
        | none =>
          simpa [selectedPricesOf, getSellingPrices, SellingPrices.sub, hsw,
            hsr, Option.orElse] using emptyMap_nonneg
        | some m =>
          rw [hsr] at hr
          simpa [selectedPricesOf, getSellingPrices, SellingPrices.sub, hsw,
            hsr, Option.orElse] using hr

/-- C3: for every stored pricing state satisfying the data-model
invariant (all stored prices non-negative), every variant and every size,
the three-tier price lookup returns a non-negative rational.  It is a
total Lean function, so it cannot throw or return an undefined value; the
empty-table case is the instance where both stored columns are `[]`. -/
theorem getPrice_nonneg (store : StoredPrices) (pt : PriceType) (size : Nat)
    (h : StoredPricesNonneg store) : 0 ≤ getPrice store pt size :=
  resolvePrice_nonneg _ pt size (selectedPricesOf_nonneg store pt h)

/-- C3 witness: with an empty stored pricing table the lookup still
yields a non-negative price. -/
theorem getPrice_nonneg_witness :
    StoredPricesNonneg emptyStore ∧ 0 ≤ getPrice emptyStore .retail 50 :=
  ⟨by simp [emptyStore, StoredPricesNonneg, OptMapNonneg, SizeMapNonneg],
   getPrice_nonneg emptyStore .retail 50
     (by simp [emptyStore, StoredPricesNonneg, OptMapNonneg, SizeMapNonneg])⟩

/-! ## C4: gas minutes are quantized to whole batch slots -/

/-- C4: for every non-negative production weight (grams), the gas-minutes
output is `ceil(batchKg / 5) * 30`, i.e. whole 5 kg batch slots of 30
minutes each. -/
theorem gasMinutes_quantized (w : ℚ) (h : 0 ≤ w) :
    (calculateMaterialRequirements w).gasMinutes = ((⌈w / 5000⌉ : ℤ) : ℚ) * 30 := by
  simp only [calculateMaterialRequirements]
  rw [div_div]
  norm_num

/-- C4 witness: a 5.1 kg (5100 g) batch cooks as 2 full batch slots — 60
minutes, not 1.02 slots. -/
theorem gasMinutes_quantized_witness :
    0 ≤ (5100 : ℚ) ∧ (calculateMaterialRequirements 5100).gasMinutes = 60 := by
  refine ⟨by norm_num, ?_⟩
  rw [gasMinutes_quantized 5100 (by norm_num)]
  have hc : (⌈(5100 : ℚ) / 5000⌉ : ℤ) = 2 := by
    rw [Int.ceil_eq_iff] <;> norm_num
  rw [hc]
  norm_num

/-! ## C5: material requirements are monotone in the weight -/

/-- C5: for all non-negative weights `w1 ≤ w2`, every output field of the
material-requirement calculator at `w1` is at most the corresponding
field at `w2`. -/
theorem calculateMaterialRequirements_monotone (w1 w2 : ℚ)
    (h0 : 0 ≤ w1) (h : w1 ≤ w2) :
    (calculateMaterialRequirements w1).maida ≤ (calculateMaterialRequirements w2).maida ∧
    (calculateMaterialRequirements w1).oil ≤ (calculateMaterialRequirements w2).oil ∧
    (calculateMaterialRequirements w1).salt ≤ (calculateMaterialRequirements w2).salt ∧
    (calculateMaterialRequirements w1).ajwain ≤ (calculateMaterialRequirements w2).ajwain ∧
    (calculateMaterialRequirements w1).gasMinutes ≤ (calculateMaterialRequirements w2).gasMinutes := by
  have hceil : (⌈w1 / 1000 / 5⌉ : ℤ) ≤ ⌈w2 / 1000 / 5⌉ := by
    apply Int.ceil_le_ceil
    gcongr
  refine ⟨?_, ?_, ?_, ?_, ?_⟩ <;>
    simp only [calculateMaterialRequirements, YIELD_FACTOR]
  · gcongr
  · gcongr
  · gcongr
  · gcongr
  · have hcast : ((⌈w1 / 1000 / 5⌉ : ℤ) : ℚ) ≤ ((⌈w2 / 1000 / 5⌉ : ℤ) : ℚ) := by
      exact_mod_cast hceil
    exact mul_le_mul_of_nonneg_right hcast (by norm_num)

/-- C5 witness: monotonicity at the concrete pair 1000 g ≤ 6000 g. -/
theorem calculateMaterialRequirements_monotone_witness :
    0 ≤ (1000 : ℚ) ∧ (1000 : ℚ) ≤ 6000 ∧
    ((calculateMaterialRequirements 1000).maida ≤ (calculateMaterialRequirements 6000).maida ∧
     (calculateMaterialRequirements 1000).oil ≤ (calculateMaterialRequirements 6000).oil ∧
     (calculateMaterialRequirements 1000).salt ≤ (calculateMaterialRequirements 6000).salt ∧
     (calculateMaterialRequirements 1000).ajwain ≤ (calculateMaterialRequirements 6000).ajwain ∧
     (calculateMaterialRequirements 1000).gasMinutes ≤ (calculateMaterialRequirements 6000).gasMinutes) :=
  ⟨by norm_num, by norm_num,
   calculateMaterialRequirements_monotone 1000 6000 (by norm_num) (by norm_num)⟩

/-! ## C6: profit excludes extra expenses -/

/-- C6: for every list of income entries and expense entries, profit is
the sum of all income amounts minus the sum of the non-extra expense
amounts, and prepending an extra-flagged expense never changes profit. -/
theorem profit_excludes_extra (incomeEntries : List IncomeEntry)
    (expenseEntries : List ExpenseEntry) :
    (profit incomeEntries expenseEntries =
      (incomeEntries.map (fun e => e.amount)).sum -
        ((expenseEntries.filter (fun e => !e.isExtra)).map (fun e => e.amount)).sum) ∧
    ∀ e : ExpenseEntry, e.isExtra = true →
      profit incomeEntries (e :: expenseEntries) = profit incomeEntries expenseEntries := by
  constructor
  · simp [profit, totalIncome, totalExpense, foldl_add_eq_sum]
  · intro e he
    simp [profit, totalExpense, List.filter_cons, he]

/-- C6 witness: income `[100]` with expenses
`[{amount: 999, isExtra: true}, {amount: 30, isExtra: false}]` — the
extra entry changes nothing and the profit is 70. -/
theorem profit_excludes_extra_witness :
    sampleExpense999.isExtra = true ∧
    profit [sampleIncome] (sampleExpense999 :: [sampleExpense30]) =
      profit [sampleIncome] [sampleExpense30] ∧
    profit [sampleIncome] [sampleExpense30] = 70 := by
  refine ⟨rfl,
    (profit_excludes_extra [sampleIncome] [sampleExpense30]).2 sampleExpense999 rfl, ?_⟩
  simp [profit, totalIncome, totalExpense, sampleIncome, sampleExpense30]
  norm_num

/-! ## C7: per-order payment status -/

/-- C7: whenever the order with the requested id is found, the payment
status is: paid = the sum of that order's payment amounts, pending =
the order's total minus paid, and the status string is `"Paid"` when
pending ≤ 0, else `"Partial"` when paid > 0, else `"Unpaid"`. -/
theorem getPaymentStatus_spec (orders : List Order) (payments : List Payment)
    (oid : ℤ) (ord : Order)
    (h : orders.find? (fun o => o.id == oid) = some ord) :
    getPaymentStatus orders payments oid =
      { totalAmount := ord.totalAmount
        totalPaid := ((payments.filter (fun p => p.orderId == oid)).map (fun p => p.amount)).sum
        pending := ord.totalAmount -
          ((payments.filter (fun p => p.orderId == oid)).map (fun p => p.amount)).sum
        status :=
          if ord.totalAmount -
              ((payments.filter (fun p => p.orderId == oid)).map (fun p => p.amount)).sum ≤ 0
          then "Paid"
          else if ((payments.filter (fun p => p.orderId == oid)).map (fun p => p.amount)).sum > 0
          then "Partial"
          else "Unpaid" } := by
  simp [getPaymentStatus, h, foldl_add_eq_sum]

/-- C7 witness: an order of total 500 is `"Paid"` with payments summing
500, `"Partial"` with 200, and `"Unpaid"` with no payment. -/
theorem getPaymentStatus_spec_witness :
    (getPaymentStatus [sampleOrder] [samplePayment 500] 1).status = "Paid" ∧
    (getPaymentStatus [sampleOrder] [samplePayment 200] 1).status = "Partial" ∧
    (getPaymentStatus [sampleOrder] [] 1).status = "Unpaid" := by
  have hf : [sampleOrder].find? (fun o => o.id == 1) = some sampleOrder := by
    simp [sampleOrder, List.find?]
  refine ⟨?_, ?_, ?_⟩
  · rw [getPaymentStatus_spec [sampleOrder] [samplePayment 500] 1 sampleOrder hf]
    norm_num [sampleOrder, samplePayment, List.filter]
  · rw [getPaymentStatus_spec [sampleOrder] [samplePayment 200] 1 sampleOrder hf]
    norm_num [sampleOrder, samplePayment, List.filter]
  · rw [getPaymentStatus_spec [sampleOrder] [] 1 sampleOrder hf]
    norm_num [sampleOrder]

/-! ## C8: the production cost calculator degrades, never fails -/

/-- The production cost is the sum of the per-entry contributions. -/
theorem calculateProductionCost_eq_sum (materials : List Material)
    (materialUsage : List (String × ℚ)) :
    calculateProductionCost materials materialUsage =
      (materialUsage.map (usageContribution materials)).sum := by
  have hstep : (fun (totalCost : ℚ) (entry : String × ℚ) =>
      if entry.1 = "gasMinutes" then
        totalCost + entry.2 * GAS_COST_PER_MINUTE
      else
        match materials.find? (fun m => m.name.toLower == entry.1.toLower) with
        | some material => totalCost + entry.2 * material.pricePerUnit
        | none => totalCost)
        = fun totalCost entry => totalCost + usageContribution materials entry := by
    funext totalCost entry
    by_cases hg : entry.1 = "gasMinutes"
    · simp [usageContribution, hg]
    · simp only [usageContribution, hg, if_false]
      cases hf : materials.find? (fun m => m.name.toLower == entry.1.toLower) <;> simp
  rw [calculateProductionCost, hstep, foldl_add_eq_sum]
  simp

/-- Summing the gas-only contributions equals the gas-minute total times
the per-minute rate. -/
theorem sum_gas_contributions (materialUsage : List (String × ℚ)) :
    (materialUsage.map
        (fun e => if e.1 = "gasMinutes" then e.2 * GAS_COST_PER_MINUTE else 0)).sum =
      ((materialUsage.filter (fun e => e.1 == "gasMinutes")).map (fun e => e.2)).sum *
        GAS_COST_PER_MINUTE := by
  induction materialUsage with
  | nil => simp
  | cons e t ih =>
    by_cases hg : e.1 = "gasMinutes"
    · simp [hg, List.filter_cons, ih, add_mul]
    · have hb : (e.1 == "gasMinutes") = false := beq_false_of_ne hg
      simp [hg, List.filter_cons, hb, ih]

/-- C8: the production cost calculator never fails: with an empty
material-price lookup the result is exactly the gas contribution
(gas minutes times the fixed per-minute rate), and an entry whose
material key has no match in the lookup contributes exactly zero. -/
theorem calculateProductionCost_degrades :
    (∀ materialUsage : List (String × ℚ),
        calculateProductionCost [] materialUsage =
          ((materialUsage.filter (fun e => e.1 == "gasMinutes")).map (fun e => e.2)).sum *
            GAS_COST_PER_MINUTE) ∧
    (∀ (materials : List Material) (materialUsage : List (String × ℚ))
        (nm : String) (qty : ℚ),
        nm ≠ "gasMinutes" →
        materials.find? (fun m => m.name.toLower == nm.toLower) = none →
        calculateProductionCost materials ((nm, qty) :: materialUsage) =
          calculateProductionCost materials materialUsage) := by
  constructor
  · intro materialUsage
    rw [calculateProductionCost_eq_sum, ← sum_gas_contributions]
    congr 1
  · intro materials materialUsage nm qty hg hf
    rw [calculateProductionCost_eq_sum, calculateProductionCost_eq_sum]
    simp [usageContribution, hg, hf]

/-- C8 witness: with no materials stored, an unknown key `"maida"`
contributes nothing and `{gasMinutes: 10}` costs exactly 10 × 2 = 20. -/
theorem calculateProductionCost_degrades_witness :
    calculateProductionCost [] (("maida", 3) :: [("gasMinutes", 10)]) =
      calculateProductionCost [] [("gasMinutes", 10)] ∧
    calculateProductionCost [] [("gasMinutes", 10)] = 20 := by
  constructor
  · exact calculateProductionCost_degrades.2 [] [("gasMinutes", 10)] "maida" 3
      (by decide) rfl
  · rw [calculateProductionCost_degrades.1 [("gasMinutes", 10)]]
    norm_num [List.filter, GAS_COST_PER_MINUTE]

/-! ## C9: price-update operations -/

/-- C9 (counterexample): as stated the claim fails on two of the three
price-update entry points.  `DataManager.updateSellingPrice` applied to
the negative price −1 is not a no-op: it stores −1.  `savePrice` applied
to the price 0 does not overwrite: it leaves the table unchanged and
shows the error toast. -/
theorem setPrice_claim_fails :
    SizeMap.read ((updateSellingPrice defaultSellingPrices .retail 50 (-1)).retail.getD []) 50 =
        some (-1) ∧
    updateSellingPrice defaultSellingPrices .retail 50 (-1) ≠ defaultSellingPrices ∧
    savePrice .retail (some 50) 0 defaultSellingPrices = (defaultSellingPrices, true) := by
  refine ⟨?_, ?_, ?_⟩
  · simp [updateSellingPrice, defaultSellingPrices, defaultRetail, SizeMap.write,
      SizeMap.read, List.lookup]
  · intro h
    have h2 : SizeMap.read ((updateSellingPrice defaultSellingPrices .retail 50 (-1)).retail.getD []) 50 =
        SizeMap.read (defaultSellingPrices.retail.getD []) 50 := by rw [h]
    simp [updateSellingPrice, defaultSellingPrices, defaultRetail, SizeMap.write,
      SizeMap.read, List.lookup] at h2
    norm_num at h2
  · norm_num [savePrice]

/-- C9 (amended): `handlePriceUpdate` behaves exactly as the claim says
(negative price → silent no-op; otherwise overwrite, including zero);
`DataManager.updateSellingPrice` overwrites unconditionally, negative
prices included; `savePrice` saves only a strictly positive parsed price
and otherwise leaves the table unchanged and reports an error. -/
theorem setPrice_behavior :
    (∀ (cur : CurrentPrices) (t : PriceType) (size : Nat) (p : ℚ),
        p < 0 → handlePriceUpdate cur t size p = cur) ∧
    (∀ (cur : CurrentPrices) (t : PriceType) (size : Nat) (p : ℚ),
        ¬ p < 0 → SizeMap.read ((handlePriceUpdate cur t size p).sub t) size = some p) ∧
    (∀ (prices : SellingPrices) (t : PriceType) (size : Nat) (p : ℚ),
        SizeMap.read (((updateSellingPrice prices t size p).sub t).getD []) size = some p) ∧
    (∀ (t : PriceType) (size : Nat) (p : ℚ) (prices : SellingPrices),
        0 < p → savePrice t (some size) p prices = (updateSellingPrice prices t size p, false)) ∧
    (∀ (t : PriceType) (size : Nat) (p : ℚ) (prices : SellingPrices),
        ¬ 0 < p → savePrice t (some size) p prices = (prices, true)) := by
  refine ⟨?_, ?_, ?_, ?_, ?_⟩
  · intro cur t size p hp
    simp [handlePriceUpdate, hp]
  · intro cur t size p hp
    cases t <;> simp [handlePriceUpdate, hp, CurrentPrices.sub, read_write]
  · intro prices t size p
    cases t <;> simp [updateSellingPrice, SellingPrices.sub, read_write]
  · intro t size p prices hp
    simp [savePrice, hp]
  · intro t size p prices hp
    simp [savePrice, hp]

/-- C9 witness: the five amended behaviors at concrete inputs. -/
theorem setPrice_behavior_witness :
    ((-3 : ℚ) < 0 ∧ handlePriceUpdate sampleCurrentPrices .retail 50 (-3) = sampleCurrentPrices) ∧
    (¬ (0 : ℚ) < 0 ∧
      SizeMap.read ((handlePriceUpdate sampleCurrentPrices .retail 50 0).sub .retail) 50 = some 0) ∧
    SizeMap.read (((updateSellingPrice defaultSellingPrices .wholesale 100 7).sub .wholesale).getD []) 100 =
      some 7 ∧
    ((0 : ℚ) < 5 ∧
      savePrice .retail (some 250) 5 defaultSellingPrices =
        (updateSellingPrice defaultSellingPrices .retail 250 5, false)) ∧
    (¬ (0 : ℚ) < 0 ∧ savePrice .retail (some 250) 0 defaultSellingPrices = (defaultSellingPrices, true)) :=
  ⟨⟨by norm_num, setPrice_behavior.1 _ _ _ _ (by norm_num)⟩,
   ⟨by norm_num, setPrice_behavior.2.1 _ _ _ _ (by norm_num)⟩,
   setPrice_behavior.2.2.1 _ _ _ _,
   ⟨by norm_num, setPrice_behavior.2.2.2.1 _ _ _ _ (by norm_num)⟩,
   ⟨by norm_num, setPrice_behavior.2.2.2.2 _ _ _ _ (by norm_num)⟩⟩

/-! ## C10: a stored zero price falls through to the linear formula -/

/-- C10: whenever the selected price column stores an explicit `0` for a
size, the resolved unit price is the linear fallback formula for that
variant and size (JS truthiness treats the stored `0` as missing), so the
order summary never prices a packet at an explicitly stored zero. -/
theorem storedZero_falls_back (store : StoredPrices) (pt : PriceType) (size : Nat)
    (h : SizeMap.read (selectedPricesOf (getSellingPrices store) pt) size = some 0) :
    getPrice store pt size = linearFallback pt size := by
  unfold getPrice resolvePrice
  rw [h]
  simp

/-- C10 witness: a stored retail price of exactly 0 for the 100 g packet
resolves to the linear formula 100 × 0.25 = 25, not 0. -/
theorem storedZero_falls_back_witness :
    SizeMap.read (selectedPricesOf (getSellingPrices zeroPriceStore) .retail) 100 = some 0 ∧
    getPrice zeroPriceStore .retail 100 = 25 := by
  have h : SizeMap.read (selectedPricesOf (getSellingPrices zeroPriceStore) .retail) 100 = some 0 := by
    simp [zeroPriceStore, getSellingPrices, selectedPricesOf, SellingPrices.sub,
      Option.orElse, SizeMap.read, List.lookup]
  refine ⟨h, ?_⟩
  rw [storedZero_falls_back zeroPriceStore .retail 100 h]
  norm_num [linearFallback]
